import Mathlib

/-!
Verification development for the InterviewNinja backend.

The definitions below are a shallow embedding of the Python sources:
  - backend/app/models/schemas.py        (enums and request/response models)
  - backend/app/services/openai_service.py   (prompt composer and opening message)
  - backend/app/services/elevenlabs_service.py (voice selection policy)
  - backend/app/services/problem_bank.py  (static problem catalog)
  - backend/app/routers/voice.py          (session orchestrator endpoints)
  - backend/app/routers/session.py        (session archive endpoints)

External collaborators (the OpenAI chat completion call, the ElevenLabs
HTTP synthesis call, the filesystem write) are modelled as oracles passed
in as function arguments; module-level mutable dictionaries are modelled
as explicit keyed stores threaded through the operations; `datetime.now()`
and `uuid.uuid4()` are modelled as explicit string parameters.
-/

namespace InterviewNinja

/-! ## Data model (schemas.py) -/

/-- schemas.py: `class InterviewType(str, Enum)`. -/
inductive InterviewType where
  | system_design
  | live_coding
  | ml_theory
  | coaching
  deriving DecidableEq

/-- schemas.py: `class Tone(str, Enum)`. -/
inductive Tone where
  | friendly
  | neutral
  | adversarial
  deriving DecidableEq

/-- schemas.py: `class Verbosity(str, Enum)`. -/
inductive Verbosity where
  | low
  | medium
  | high
  deriving DecidableEq

/-- schemas.py: `class ProblemSource(str, Enum)`. -/
inductive ProblemSource where
  | random
  | description
  | url
  deriving DecidableEq

/-- The `.value` attribute of the str-enum `InterviewType`. -/
def InterviewType.value : InterviewType → String
  | .system_design => "system_design"
  | .live_coding => "live_coding"
  | .ml_theory => "ml_theory"
  | .coaching => "coaching"

/-- The `.value` attribute of the str-enum `Tone`. -/
def Tone.value : Tone → String
  | .friendly => "friendly"
  | .neutral => "neutral"
  | .adversarial => "adversarial"

/-- One entry of the `messages` list stored in the in-memory session dict
(voice.py builds these as plain dicts with keys role/content/timestamp). -/
structure Msg where
  role : String
  content : String
  timestamp : String
  deriving DecidableEq

/-- One in-memory session record, i.e. one value of the module-level
`sessions` dict in voice.py (lines 59-68). -/
structure Session where
  interview_type : InterviewType
  verbosity : Verbosity
  tone : Tone
  problem : Option String
  messages : List Msg
  created_at : String
  deriving DecidableEq

/-- The module-level dict `sessions: Dict[str, dict]` of voice.py,
modelled as a keyed store. -/
abbrev Store := String → Option Session

/-- Python truthiness of an `Optional[str]` value: `None` and the empty
string are falsy, every other string (including whitespace-only strings)
is truthy. -/
def pyTruthy : Option String → Bool
  | none => false
  | some s => s != ""

/-- Model of Python `s.split('\n')[0]`: the prefix of `s` before the
first newline. -/
def py_first_line (s : String) : String :=
  String.mk (s.toList.takeWhile (fun c => c != '\n'))

/-- Model of Python `s.strip()`: remove leading and trailing whitespace. -/
def py_strip (s : String) : String :=
  String.mk (((s.toList.dropWhile Char.isWhitespace).reverse.dropWhile
    Char.isWhitespace).reverse)

/-! ## openai_service.py -/

/-- openai_service.py lines 14-39: `SYSTEM_PROMPTS`, the category-specific
base directive table. -/
def SYSTEM_PROMPTS : InterviewType → String
  | .system_design =>
      "You are an experienced ML/AI system design interviewer. \nYour role is to guide candidates through system design problems for machine learning systems.\nFocus on: scalability, data pipelines, model serving, monitoring, and trade-offs.\nAsk probing questions about their design choices and help them think through edge cases.\nThe candidate may be drawing on a canvas - reference their diagrams when appropriate."
  | .live_coding =>
      "You are an experienced coding interviewer for ML/AI positions.\nYour role is to present coding problems and guide candidates through solving them.\nFocus on: algorithm efficiency, code quality, ML-specific implementations (data preprocessing, \nmodel evaluation, feature engineering).\nProvide hints when stuck, but let them drive the solution.\nThe candidate is writing code in an editor - reference their code when appropriate."
  | .ml_theory =>
      "You are an expert ML/AI interviewer testing theoretical knowledge.\nYour role is to ask questions about machine learning concepts, deep learning, statistics, \nand AI fundamentals.\nCover topics like: gradient descent, regularization, bias-variance tradeoff, neural network \narchitectures, transformers, attention mechanisms, loss functions, optimization.\nThe candidate may write formulas - acknowledge and discuss their mathematical notation."
  | .coaching =>
      "You are a supportive ML/AI career coach.\nYour role is to help candidates prepare for their interviews, provide advice on career development,\ndiscuss salary negotiations, review their experience, and build their confidence.\nBe encouraging but honest. Help them articulate their experiences effectively."

/-- openai_service.py lines 41-45: `TONE_MODIFIERS`. -/
def TONE_MODIFIERS : Tone → String
  | .friendly =>
      "Be warm, encouraging, and supportive. Use positive reinforcement frequently."
  | .neutral =>
      "Be professional and balanced. Provide objective feedback without being too warm or cold."
  | .adversarial =>
      "Be challenging and push back on answers. Play devil\x27s advocate. Test their conviction and ability to defend their choices under pressure."

/-- openai_service.py lines 47-51: `VERBOSITY_MODIFIERS`. -/
def VERBOSITY_MODIFIERS : Verbosity → String
  | .low =>
      "Keep responses brief and to the point. Ask one question at a time. Minimal explanation."
  | .medium =>
      "Provide moderate detail in responses. Balance between brevity and thoroughness."
  | .high =>
      "Provide detailed explanations and context. Elaborate on concepts when relevant."

/-- openai_service.py lines 54-76: `build_system_prompt`.  Note the topic
block is appended under Python truthiness of `problem` (`if problem:`),
so a whitespace-only problem string does get a topic block. -/
def build_system_prompt (interview_type : InterviewType) (tone : Tone)
    (verbosity : Verbosity) (problem : Option String) : String :=
  let base_prompt := SYSTEM_PROMPTS interview_type
  let tone_modifier := TONE_MODIFIERS tone
  let verbosity_modifier := VERBOSITY_MODIFIERS verbosity
  let prompt := base_prompt ++ "\n\nCommunication Style:\n" ++ tone_modifier
    ++ "\n" ++ verbosity_modifier
    ++ "\n\nImportant: You are simulating a real interview. Stay in character throughout."
  if pyTruthy problem then
    prompt ++ "\n\nThe interview problem/topic is:\n" ++ problem.getD ""
  else
    prompt

/-- openai_service.py lines 86-91: the `problem_name` extraction at the
start of `get_opening_message`: first line of the problem, stripped, cut
to 100 characters. -/
def problem_name_of (problem : Option String) : Option String :=
  if pyTruthy problem then
    let first_line := py_strip (py_first_line (problem.getD ""))
    some (if first_line.length > 100 then first_line.take 100 else first_line)
  else
    none

/-- openai_service.py lines 93-115: the category-specific greeting chosen
by `get_opening_message` before tone adjustment (the trailing `else`
branch of the Python chain is unreachable for the four-valued enum). -/
def opening_raw (interview_type : InterviewType) (problem_name : Option String) :
    String :=
  match interview_type with
  | .system_design =>
      if pyTruthy problem_name then
        "Hello! Today we\x27re going to design a system together. I\x27d like you to walk me through how you would build "
          ++ problem_name.getD ""
          ++ ". Before we start, could you briefly share your experience with ML system design?"
      else
        "Hello! Today we\x27re going to work through a system design problem together. I\x27ll present the scenario in just a moment. First, could you tell me a bit about your background with ML system design?"
  | .live_coding =>
      if pyTruthy problem_name then
        "Hi there! We have a coding challenge for you today. We\x27ll be working on "
          ++ problem_name.getD ""
          ++ ". Feel free to think out loud as you code. Are you ready to get started?"
      else
        "Hi there! Today we\x27ll work through a coding problem together. I encourage you to think out loud as you work through your solution. Ready to see what we\x27ll be tackling?"
  | .ml_theory =>
      if pyTruthy problem_name then
        "Welcome! Today we\x27ll dive into some machine learning theory, specifically around "
          ++ problem_name.getD ""
          ++ ". Let\x27s start with a foundational question to warm up."
      else
        "Welcome! Today we\x27ll explore some machine learning and deep learning concepts together. I\x27ll ask you questions that might come up in a real interview. Ready to begin?"
  | .coaching =>
      "Hi there! I\x27m here to help you prepare for your upcoming ML interviews. We can work on anything from behavioral questions to technical communication. What would you like to focus on today?"

/-- openai_service.py lines 117-121: the tone transform applied to the
greeting at the end of `get_opening_message`. -/
def adjust_tone (tone : Tone) (opening : String) : String :=
  match tone with
  | .friendly => "Great to meet you! " ++ opening
  | .adversarial =>
      ((opening.replace "Hello!" "Alright,").replace "Hi there!" "Let\x27s begin.").replace
        "Welcome!" "Okay,"
  | .neutral => opening

/-- openai_service.py lines 79-123: `get_opening_message`.  Its Python
signature is `(interview_type, tone, problem=None)` — it has no
`verbosity` parameter. -/
def get_opening_message (interview_type : InterviewType) (tone : Tone)
    (problem : Option String) : String :=
  adjust_tone tone (opening_raw interview_type (problem_name_of problem))

/-- The opaque chat-completion collaborator (`client.chat.completions.create`):
it receives the role-tagged message list and either returns the reply text
or fails with an exception message. -/
abbrev CompleteOracle := List (String × String) → Except String String

/-- openai_service.py lines 126-151: `generate_response` builds the system
prompt, translates the stored history (interviewer becomes assistant,
everything else becomes user) and calls the completion collaborator. -/
def generate_response (complete : CompleteOracle) (messages : List Msg)
    (interview_type : InterviewType) (tone : Tone) (verbosity : Verbosity)
    (problem : Option String) : Except String String :=
  let system_prompt := build_system_prompt interview_type tone verbosity problem
  let openai_messages := ("system", system_prompt) ::
    messages.map (fun msg =>
      (if msg.role = "interviewer" then "assistant" else "user", msg.content))
  complete openai_messages

/-! ## elevenlabs_service.py -/

/-- elevenlabs_service.py line 17: the default voice id. -/
def VOICE_ID : String := "21m00Tcm4TlvDq8ikWAM"

/-- elevenlabs_service.py lines 106-110: `ALTERNATIVE_VOICES`. -/
def ALTERNATIVE_VOICES : List (String × String) :=
  [("warm_female", "21m00Tcm4TlvDq8ikWAM"),
   ("professional_female", "EXAVITQu4vr4xnSDxMaL"),
   ("friendly_female", "MF3mGyEYCl7XYWbV9V6O")]

/-- elevenlabs_service.py lines 113-122: `get_voice_for_tone`. -/
def get_voice_for_tone (tone : String) : String :=
  if tone = "friendly" then
    (ALTERNATIVE_VOICES.lookup "friendly_female").getD VOICE_ID
  else if tone = "adversarial" then
    (ALTERNATIVE_VOICES.lookup "professional_female").getD VOICE_ID
  else
    (ALTERNATIVE_VOICES.lookup "warm_female").getD VOICE_ID

/-- The opaque speech-synthesis collaborator
(`elevenlabs_service.text_to_speech_base64`): text and voice id to base64
audio, or an exception message. -/
abbrev SynthOracle := String → String → Except String String

/-! ## problem_bank.py -/

/-- One catalog entry of problem_bank.py (a dict with name and content). -/
structure ProblemEntry where
  name : String
  content : String
  deriving DecidableEq

/-- problem_bank.py lines 9-54: `SYSTEM_DESIGN_PROBLEMS`. -/
def SYSTEM_DESIGN_PROBLEMS : List ProblemEntry :=
  [{ name := "ML Model Serving Platform",
     content := "Design a scalable machine learning model serving platform that can:\n- Handle multiple ML models with different frameworks (TensorFlow, PyTorch, scikit-learn)\n- Support real-time predictions with low latency (<100ms)\n- Scale to handle 10,000 requests per second\n- Support A/B testing and gradual rollouts\n- Include monitoring and alerting for model performance\n\nConsider: load balancing, caching, model versioning, and rollback strategies." },
   { name := "Recommendation System",
     content := "Design a recommendation system for a streaming platform (like Netflix/Spotify) that:\n- Provides personalized recommendations for millions of users\n- Updates in near real-time based on user interactions\n- Handles cold-start problem for new users and new content\n- Balances between exploitation (showing what users like) and exploration (discovering new preferences)\n- Can explain why items are recommended\n\nConsider: collaborative filtering, content-based filtering, and hybrid approaches." },
   { name := "Fraud Detection Pipeline",
     content := "Design a real-time fraud detection system for a payment platform that:\n- Processes millions of transactions per day\n- Detects fraudulent transactions in real-time (<500ms)\n- Minimizes false positives while catching most fraud\n- Adapts to new fraud patterns over time\n- Provides explainable decisions for compliance\n\nConsider: feature engineering, model retraining, feedback loops, and handling imbalanced data." },
   { name := "Search Ranking System",
     content := "Design a search ranking system for an e-commerce platform that:\n- Returns relevant results within 200ms\n- Incorporates multiple signals (text relevance, popularity, personalization)\n- Handles queries with typos and synonyms\n- Supports real-time inventory updates\n- Enables easy experimentation with ranking algorithms\n\nConsider: indexing strategies, learning to rank, and online/offline evaluation." }]

/-- problem_bank.py lines 56-119: `LIVE_CODING_PROBLEMS`. -/
def LIVE_CODING_PROBLEMS : List ProblemEntry :=
  [{ name := "Implement K-Means Clustering",
     content := "Implement the K-Means clustering algorithm from scratch.\n\nYour implementation should:\n1. Initialize k centroids randomly from the data points\n2. Assign each point to the nearest centroid\n3. Update centroids as the mean of assigned points\n4. Repeat until convergence or max iterations\n\nInput: List of data points, number of clusters k\nOutput: Cluster assignments and final centroids\n\nExample:\npoints = [[1, 2], [1, 4], [1, 0], [10, 2], [10, 4], [10, 0]]\nk = 2\nExpected: Two clusters around [1, 2] and [10, 2]" },
   { name := "Feature Preprocessing Pipeline",
     content := "Implement a feature preprocessing pipeline that handles:\n\n1. Missing value imputation (mean for numeric, mode for categorical)\n2. Categorical encoding (one-hot encoding)\n3. Numerical scaling (standardization)\n\nYour pipeline should:\n- Learn parameters from training data (fit)\n- Apply transformations to new data (transform)\n- Handle both numeric and categorical features\n\nWrite clean, modular code that could be used in production." },
   { name := "Binary Classification Metrics",
     content := "Implement functions to calculate common binary classification metrics:\n\n1. Accuracy\n2. Precision\n3. Recall\n4. F1 Score\n5. ROC-AUC (given predictions and probabilities)\n\nAlso implement a function that finds the optimal threshold for a given metric.\n\nInput: y_true (actual labels), y_pred (predicted labels), y_prob (predicted probabilities)\nOutput: Dictionary of all metrics" },
   { name := "Gradient Descent Optimizer",
     content := "Implement gradient descent optimization for linear regression.\n\nYour implementation should:\n1. Initialize weights randomly\n2. Compute gradients of MSE loss\n3. Update weights using gradient descent\n4. Support batch, mini-batch, and stochastic modes\n5. Track loss history for visualization\n\nBonus: Implement momentum or Adam optimizer variant.\n\nTest on a simple dataset and plot the loss curve." }]

/-- problem_bank.py lines 121-169: `ML_THEORY_QUESTIONS`. -/
def ML_THEORY_QUESTIONS : List ProblemEntry :=
  [{ name := "Bias-Variance Tradeoff",
     content := "Let\x27s discuss the bias-variance tradeoff in machine learning.\n\nTopics to explore:\n- What is bias and variance in the context of ML models?\n- How does model complexity affect each?\n- What is the relationship to overfitting and underfitting?\n- How do regularization techniques address this tradeoff?\n- Can you give examples of high-bias vs high-variance models?" },
   { name := "Transformer Architecture",
     content := "Let\x27s dive deep into the Transformer architecture.\n\nTopics to explore:\n- What problem does self-attention solve that RNNs couldn\x27t?\n- Explain the scaled dot-product attention mechanism\n- What are query, key, and value in attention?\n- Why do we need positional encoding?\n- How does multi-head attention work and why is it useful?\n- What is the computational complexity of self-attention?" },
   { name := "Gradient Problems in Deep Learning",
     content := "Let\x27s discuss gradient-related problems in deep neural networks.\n\nTopics to explore:\n- What causes vanishing and exploding gradients?\n- How do different activation functions affect gradient flow?\n- What techniques help mitigate these issues?\n- Explain batch normalization and why it helps\n- How do skip connections in ResNet address gradient problems?\n- What is gradient clipping and when would you use it?" },
   { name := "Loss Functions and Optimization",
     content := "Let\x27s explore loss functions and optimization in deep learning.\n\nTopics to explore:\n- Compare MSE vs Cross-Entropy loss - when to use each?\n- What is the problem with using accuracy as a loss function?\n- Explain the intuition behind Adam optimizer\n- What is learning rate scheduling and why is it important?\n- How does batch size affect optimization?\n- What is the difference between local and global minima?" }]

/-- problem_bank.py lines 172-189: `COACHING_TOPICS`. -/
def COACHING_TOPICS : List ProblemEntry :=
  [{ name := "Interview Preparation Strategy",
     content := "General interview preparation coaching. Help the candidate develop a study plan, practice strategy, and build confidence for their upcoming ML/AI interviews." },
   { name := "Behavioral Interview Prep",
     content := "Behavioral interview coaching. Help the candidate structure their experiences using STAR format, identify impactful projects to discuss, and practice answering common behavioral questions." },
   { name := "Technical Communication",
     content := "Help the candidate improve how they communicate technical concepts. Practice explaining complex ML topics clearly, structuring system design explanations, and thinking out loud during coding." },
   { name := "Career Discussion",
     content := "Career coaching session. Discuss career goals, evaluate job opportunities, prepare for salary negotiations, or plan professional development in ML/AI." }]

/-- problem_bank.py lines 191-196: `PROBLEM_BANKS`. -/
def PROBLEM_BANKS : InterviewType → List ProblemEntry
  | .system_design => SYSTEM_DESIGN_PROBLEMS
  | .live_coding => LIVE_CODING_PROBLEMS
  | .ml_theory => ML_THEORY_QUESTIONS
  | .coaching => COACHING_TOPICS

/-- problem_bank.py lines 199-203: `get_random_problem`; the call to
`random.choice` is modelled by an arbitrary index `r` reduced modulo the
catalog length. -/
def get_random_problem (r : Nat) (interview_type : InterviewType) : ProblemEntry :=
  let problems := PROBLEM_BANKS interview_type
  if problems.isEmpty then
    { name := "General Discussion", content := "Let\x27s have a general discussion." }
  else
    problems.getD (r % problems.length) { name := "", content := "" }

/-! ## voice.py — the session orchestrator endpoints -/

/-- schemas.py: `StartSessionRequest`. -/
structure StartSessionRequest where
  interview_type : InterviewType
  verbosity : Verbosity
  tone : Tone
  problem_source : ProblemSource
  problem_description : Option String
  problem_url : Option String
  deriving DecidableEq

/-- schemas.py: `StartSessionResponse`. -/
structure StartSessionResponse where
  session_id : String
  opening_text : String
  audio_url : Option String
  deriving DecidableEq

/-- schemas.py: `RespondRequest`. -/
structure RespondRequest where
  session_id : String
  user_message : String
  deriving DecidableEq

/-- schemas.py: `RespondResponse`. -/
structure RespondResponse where
  response_text : String
  audio_url : Option String
  is_complete : Bool
  deriving DecidableEq

/-- The exceptions the endpoints can raise: FastAPI `HTTPException`
(carrying status code and detail) and the Python `TypeError` raised by a
keyword call that names a non-existent parameter. -/
inductive ApiError where
  | httpException (status_code : Nat) (detail : String)
  | typeError (message : String)
  deriving DecidableEq

/-- voice.py lines 70-83 and 128-141: the best-effort speech-synthesis
block shared by `start_session` and `respond`.  If the ElevenLabs API key
is unset (Python-falsy) the synthesis is skipped; otherwise the synthesis
collaborator is called and any exception is caught and logged, degrading
to `None`; on success the base64 audio is wrapped in a data URL. -/
def tts_best_effort (api_key : Option String) (synth : SynthOracle)
    (tone : Tone) (text : String) : Option String :=
  if pyTruthy api_key = false then
    none
  else
    match synth text (get_voice_for_tone tone.value) with
    | Except.ok audio_base64 => some ("data:audio/mpeg;base64," ++ audio_base64)
    | Except.error _ => none

/-- Parameter names of `openai_service.get_opening_message`
(openai_service.py lines 79-83). -/
def get_opening_message_params : List String :=
  ["interview_type", "tone", "problem"]

/-- Keyword-argument names used by `start_session` at its call to
`get_opening_message` (voice.py lines 51-56). -/
def start_session_opening_kwargs : List String :=
  ["interview_type", "tone", "verbosity", "problem"]

/-- Python keyword-call rule: every keyword argument must name a formal
parameter of the callee, otherwise the call raises `TypeError` before the
function body runs. -/
def kwargs_accepted (params kwargs : List String) : Bool :=
  kwargs.all (fun k => params.contains k)

/-- voice.py lines 31-89: `start_session`.  The fresh uuid and the two
identical `datetime.now()` readings are modelled by the `session_id` and
`now` parameters; `r` models the randomness of `random.choice`.  The call
to `get_opening_message` passes the keyword argument `verbosity`, which
is not a parameter of that function, so Python raises `TypeError` at the
call site (before the session is stored); the embedding guards the rest
of the body with the keyword-acceptance check to reflect this. -/
def start_session (r : Nat) (api_key : Option String) (synth : SynthOracle)
    (session_id now : String) (sessions : Store)
    (request : StartSessionRequest) :
    Store × Except ApiError StartSessionResponse :=
  let problem : Option String :=
    if request.problem_source = ProblemSource.random then
      let problem_data := get_random_problem r request.interview_type
      some (problem_data.name ++ "\n\n" ++ problem_data.content)
    else if request.problem_source = ProblemSource.description ∧
        pyTruthy request.problem_description then
      request.problem_description
    else if request.problem_source = ProblemSource.url ∧
        pyTruthy request.problem_url then
      request.problem_description
    else
      none
  if kwargs_accepted get_opening_message_params start_session_opening_kwargs then
    let opening_text := get_opening_message request.interview_type request.tone problem
    let session : Session :=
      { interview_type := request.interview_type
        verbosity := request.verbosity
        tone := request.tone
        problem := problem
        messages := [{ role := "interviewer", content := opening_text, timestamp := now }]
        created_at := now }
    let sessions1 : Store :=
      fun k => if k = session_id then some session else sessions k
    let audio_url := tts_best_effort api_key synth request.tone opening_text
    (sessions1,
     Except.ok
       { session_id := session_id, opening_text := opening_text, audio_url := audio_url })
  else
    (sessions,
     Except.error
       (ApiError.typeError
         "get_opening_message() got an unexpected keyword argument \x27verbosity\x27"))

/-- voice.py lines 92-147: `respond`.  The two `datetime.now()` readings
are the parameters `t1` and `t2`.  The candidate turn is appended to the
stored session before the generation call; a generation failure raises
`HTTPException(500, ...)` with the candidate turn retained; on success
the interviewer turn is appended and best-effort synthesis is attempted. -/
def respond (complete : CompleteOracle) (api_key : Option String)
    (synth : SynthOracle) (t1 t2 : String) (sessions : Store)
    (request : RespondRequest) : Store × Except ApiError RespondResponse :=
  match sessions request.session_id with
  | none => (sessions, Except.error (ApiError.httpException 404 "Session not found"))
  | some session =>
    let messages1 := session.messages ++
      [{ role := "user", content := request.user_message, timestamp := t1 }]
    let sessions1 : Store := fun k =>
      if k = request.session_id then some { session with messages := messages1 }
      else sessions k
    match generate_response complete messages1 session.interview_type session.tone
        session.verbosity session.problem with
    | Except.error e =>
        (sessions1,
         Except.error (ApiError.httpException 500 ("AI generation error: " ++ e)))
    | Except.ok response_text =>
        let messages2 := messages1 ++
          [{ role := "interviewer", content := response_text, timestamp := t2 }]
        let sessions2 : Store := fun k =>
          if k = request.session_id then some { session with messages := messages2 }
          else sessions k
        let audio_url := tts_best_effort api_key synth session.tone response_text
        (sessions2,
         Except.ok
           { response_text := response_text, audio_url := audio_url, is_complete := false })

/-- voice.py lines 167-175: `get_session` (a pure read). -/
def get_session (sessions : Store) (session_id : String) :
    Except ApiError Session :=
  match sessions session_id with
  | none => Except.error (ApiError.httpException 404 "Session not found")
  | some session => Except.ok session

/-- The response of `end_session` (voice.py line 187). -/
structure EndSessionResponse where
  message : String
  total_messages : Nat
  deriving DecidableEq

/-- voice.py lines 178-187: `end_session` pops the session from the store
and reports the length of its message history. -/
def end_session (sessions : Store) (session_id : String) :
    Store × Except ApiError EndSessionResponse :=
  match sessions session_id with
  | none => (sessions, Except.error (ApiError.httpException 404 "Session not found"))
  | some session =>
      (fun k => if k = session_id then none else sessions k,
       Except.ok { message := "Session ended", total_messages := session.messages.length })

/-! ## session.py — the session archive endpoints -/

/-- schemas.py: `Message` (pydantic model; `timestamp` is optional). -/
structure Message where
  role : String
  content : String
  timestamp : Option String
  deriving DecidableEq

/-- schemas.py: `SaveSessionRequest`. -/
structure SaveSessionRequest where
  session_id : String
  interview_type : InterviewType
  messages : List Message
  problem : Option String
  deriving DecidableEq

/-- The serialized snapshot built by `save_session` (session.py lines
32-38): the request payload plus the save timestamp, with the interview
type stored as its string value. -/
structure SavedSessionData where
  session_id : String
  interview_type : String
  messages : List Message
  problem : Option String
  saved_at : String
  deriving DecidableEq

/-- The archive state: the module-level `saved_sessions` dict plus the
`saved_sessions/` directory of JSON files, both keyed by session id. -/
structure ArchiveState where
  saved_sessions : String → Option SavedSessionData
  files : String → Option SavedSessionData

/-- The response dict of `save_session` (session.py lines 51-55). -/
structure SaveSessionResponse where
  message : String
  session_id : String
  saved_at : String
  deriving DecidableEq

/-- session.py lines 27-55: `save_session`.  The in-memory index is
updated unconditionally; the durable file write is attempted inside a
try/except whose failure is only printed — `write_ok` models whether the
filesystem write succeeds.  The endpoint returns the success payload in
every case. -/
def save_session (write_ok : Bool) (now : String) (arch : ArchiveState)
    (request : SaveSessionRequest) :
    ArchiveState × Except ApiError SaveSessionResponse :=
  let session_data : SavedSessionData :=
    { session_id := request.session_id
      interview_type := request.interview_type.value
      messages := request.messages
      problem := request.problem
      saved_at := now }
  let arch1 : ArchiveState :=
    { arch with
      saved_sessions := fun k =>
        if k = request.session_id then some session_data else arch.saved_sessions k }
  let arch2 : ArchiveState :=
    if write_ok then
      { arch1 with
        files := fun k =>
          if k = request.session_id then some session_data else arch1.files k }
    else
      arch1
  (arch2,
   Except.ok
     { message := "Session saved successfully"
       session_id := request.session_id
       saved_at := now })

/-- session.py lines 119-134: `get_saved_session` checks the in-memory
index first, then the file directory, and raises 404 if neither has the
id. -/
def get_saved_session (arch : ArchiveState) (session_id : String) :
    Except ApiError SavedSessionData :=
  match arch.saved_sessions session_id with
  | some data => Except.ok data
  | none =>
    match arch.files session_id with
    | some data => Except.ok data
    | none => Except.error (ApiError.httpException 404 "Session not found")

/-! ## Operation sequences over the live session store (for the
append-only invariant) -/

/-- One orchestrator operation on the live session store, carrying the
collaborator outcomes it runs with. -/
inductive Op where
  | respondOp (complete : CompleteOracle) (api_key : Option String)
      (synth : SynthOracle) (t1 t2 : String) (request : RespondRequest)
  | getOp (session_id : String)
  | endOp (session_id : String)

/-- The store left behind by one operation (`get_session` is a pure read). -/
def run_op (sessions : Store) : Op → Store
  | Op.respondOp complete api_key synth t1 t2 request =>
      (respond complete api_key synth t1 t2 sessions request).1
  | Op.getOp _ => sessions
  | Op.endOp session_id => (end_session sessions session_id).1

/-- The store left behind by a sequence of operations. -/
def run_ops (sessions : Store) : List Op → Store
  | [] => sessions
  | op :: ops => run_ops (run_op sessions op) ops

/-- The configuration fields of a session (everything except the growing
history). -/
def same_config (s t : Session) : Prop :=
  t.interview_type = s.interview_type ∧ t.tone = s.tone ∧
  t.verbosity = s.verbosity ∧ t.problem = s.problem ∧ t.created_at = s.created_at

/-- One store evolves from another by, per surviving session, keeping the
configuration and only appending to the message history. -/
def extends_only (sessions sessions2 : Store) : Prop :=
  ∀ id s2, sessions2 id = some s2 →
    ∃ s, sessions id = some s ∧ same_config s s2 ∧
      ∃ tail, s2.messages = s.messages ++ tail

/-! ## Concrete fixtures used by the witness theorems -/

/-- A concrete stored session used to instantiate the theorems below. -/
def ex_session : Session :=
  { interview_type := InterviewType.ml_theory
    verbosity := Verbosity.low
    tone := Tone.neutral
    problem := some "Bias-Variance Tradeoff"
    messages := [{ role := "interviewer", content := "Welcome! Ready to begin?", timestamp := "t0" }]
    created_at := "t0" }

/-- A concrete store holding exactly `ex_session` under the id s1. -/
def ex_store : Store := fun k => if k = "s1" then some ex_session else none

/-- A completion collaborator that always answers with a fixed reply. -/
def ok_complete : CompleteOracle := fun _ => Except.ok "Good point."

/-- A completion collaborator that always fails. -/
def fail_complete : CompleteOracle := fun _ => Except.error "model overloaded"

/-- A speech-synthesis collaborator that always fails. -/
def fail_synth : SynthOracle := fun _ _ => Except.error "synthesis unavailable"

/-- A concrete respond request addressed to the stored session. -/
def ex_request : RespondRequest := { session_id := "s1", user_message := "hello" }

/-- A concrete valid start-session request. -/
def ex_start_request : StartSessionRequest :=
  { interview_type := InterviewType.coaching
    verbosity := Verbosity.medium
    tone := Tone.neutral
    problem_source := ProblemSource.description
    problem_description := some "Graph traversal"
    problem_url := none }

/-- A concrete operation sequence: one successful respond followed by a
read. -/
def ex_ops : List Op :=
  [Op.respondOp ok_complete none fail_synth "t1" "t2" ex_request, Op.getOp "s1"]

/-- The session left under s1 after running `ex_ops` on `ex_store`. -/
def ex_session_after : Session :=
  { interview_type := InterviewType.ml_theory
    verbosity := Verbosity.low
    tone := Tone.neutral
    problem := some "Bias-Variance Tradeoff"
    messages := [{ role := "interviewer", content := "Welcome! Ready to begin?", timestamp := "t0" },
                 { role := "user", content := "hello", timestamp := "t1" },
                 { role := "interviewer", content := "Good point.", timestamp := "t2" }]
    created_at := "t0" }

/-! ## Helper lemmas (shared by the claim theorems below) -/

theorem respond_none_eq (complete : CompleteOracle) (api_key : Option String)
    (synth : SynthOracle) (t1 t2 : String) (sessions : Store)
    (request : RespondRequest) (hs : sessions request.session_id = none) :
    respond complete api_key synth t1 t2 sessions request
      = (sessions, Except.error (ApiError.httpException 404 "Session not found")) := by
  simp [respond, hs]

theorem respond_error_eq (complete : CompleteOracle) (api_key : Option String)
    (synth : SynthOracle) (t1 t2 : String) (sessions : Store)
    (request : RespondRequest) (s : Session) (e : String)
    (hs : sessions request.session_id = some s)
    (hgen : generate_response complete
      (s.messages ++ [{ role := "user", content := request.user_message, timestamp := t1 }])
      s.interview_type s.tone s.verbosity s.problem = Except.error e) :
    respond complete api_key synth t1 t2 sessions request
      = (fun k => if k = request.session_id then
            some { s with messages := s.messages ++
              [{ role := "user", content := request.user_message, timestamp := t1 }] }
          else sessions k,
         Except.error (ApiError.httpException 500 ("AI generation error: " ++ e))) := by
  simp [respond, hs, hgen]

theorem respond_ok_eq (complete : CompleteOracle) (api_key : Option String)
    (synth : SynthOracle) (t1 t2 : String) (sessions : Store)
    (request : RespondRequest) (s : Session) (reply : String)
    (hs : sessions request.session_id = some s)
    (hgen : generate_response complete
      (s.messages ++ [{ role := "user", content := request.user_message, timestamp := t1 }])
      s.interview_type s.tone s.verbosity s.problem = Except.ok reply) :
    respond complete api_key synth t1 t2 sessions request
      = (fun k => if k = request.session_id then
            some { s with messages :=
              (s.messages ++ [{ role := "user", content := request.user_message, timestamp := t1 }])
              ++ [{ role := "interviewer", content := reply, timestamp := t2 }] }
          else sessions k,
         Except.ok { response_text := reply,
                     audio_url := tts_best_effort api_key synth s.tone reply,
                     is_complete := false }) := by
  simp [respond, hs, hgen]

theorem start_session_eq (r : Nat) (api_key : Option String) (synth : SynthOracle)
    (session_id now : String) (sessions : Store) (request : StartSessionRequest) :
    start_session r api_key synth session_id now sessions request
      = (sessions,
         Except.error (ApiError.typeError
           "get_opening_message() got an unexpected keyword argument \x27verbosity\x27")) := by
  simp [start_session, kwargs_accepted, get_opening_message_params,
    start_session_opening_kwargs]

theorem same_config_rfl (s : Session) : same_config s s := ⟨rfl, rfl, rfl, rfl, rfl⟩

theorem same_config_trans {a b c : Session} (h1 : same_config a b)
    (h2 : same_config b c) : same_config a c := by
  obtain ⟨i1, t1, v1, p1, c1⟩ := h1
  obtain ⟨i2, t2, v2, p2, c2⟩ := h2
  exact ⟨i2.trans i1, t2.trans t1, v2.trans v1, p2.trans p1, c2.trans c1⟩

theorem extends_only_rfl (sessions : Store) : extends_only sessions sessions :=
  fun _ s2 h2 => ⟨s2, h2, same_config_rfl s2, [], (List.append_nil s2.messages).symm⟩

theorem extends_only_trans {a b c : Store} (h1 : extends_only a b)
    (h2 : extends_only b c) : extends_only a c := by
  intro id s3 h3
  obtain ⟨s2, hb, hcfg2, tail2, htail2⟩ := h2 id s3 h3
  obtain ⟨s1, ha, hcfg1, tail1, htail1⟩ := h1 id s2 hb
  refine ⟨s1, ha, same_config_trans hcfg1 hcfg2, tail1 ++ tail2, ?_⟩
  rw [htail2, htail1, List.append_assoc]

theorem respond_extends (complete : CompleteOracle) (api_key : Option String)
    (synth : SynthOracle) (t1 t2 : String) (sessions : Store)
    (request : RespondRequest) :
    extends_only sessions (respond complete api_key synth t1 t2 sessions request).1 := by
  intro id s2 h2
  rcases hfind : sessions request.session_id with _ | s
  · rw [respond_none_eq complete api_key synth t1 t2 sessions request hfind] at h2
    exact ⟨s2, h2, same_config_rfl s2, [], (List.append_nil s2.messages).symm⟩
  · rcases hgen : generate_response complete
        (s.messages ++ [{ role := "user", content := request.user_message, timestamp := t1 }])
        s.interview_type s.tone s.verbosity s.problem with e | reply
    · rw [respond_error_eq complete api_key synth t1 t2 sessions request s e hfind hgen] at h2
      dsimp only at h2
      by_cases hid : id = request.session_id
      · subst hid
        rw [if_pos rfl] at h2
        obtain rfl := Option.some.inj h2
        exact ⟨s, hfind, ⟨rfl, rfl, rfl, rfl, rfl⟩, _, rfl⟩
      · rw [if_neg hid] at h2
        exact ⟨s2, h2, same_config_rfl s2, [], (List.append_nil s2.messages).symm⟩
    · rw [respond_ok_eq complete api_key synth t1 t2 sessions request s reply hfind hgen] at h2
      dsimp only at h2
      by_cases hid : id = request.session_id
      · subst hid
        rw [if_pos rfl] at h2
        obtain rfl := Option.some.inj h2
        refine ⟨s, hfind, ⟨rfl, rfl, rfl, rfl, rfl⟩,
          [{ role := "user", content := request.user_message, timestamp := t1 },
           { role := "interviewer", content := reply, timestamp := t2 }], ?_⟩
        simp
      · rw [if_neg hid] at h2
        exact ⟨s2, h2, same_config_rfl s2, [], (List.append_nil s2.messages).symm⟩

theorem end_session_extends (sessions : Store) (sid : String) :
    extends_only sessions (end_session sessions sid).1 := by
  intro id s2 h2
  rcases hfind : sessions sid with _ | s
  · simp only [end_session, hfind] at h2
    exact ⟨s2, h2, same_config_rfl s2, [], (List.append_nil s2.messages).symm⟩
  · simp only [end_session, hfind] at h2
    by_cases hid : id = sid
    · subst hid
      rw [if_pos rfl] at h2
      cases h2
    · rw [if_neg hid] at h2
      exact ⟨s2, h2, same_config_rfl s2, [], (List.append_nil s2.messages).symm⟩

theorem run_op_extends (sessions : Store) (op : Op) :
    extends_only sessions (run_op sessions op) := by
  cases op with
  | respondOp complete api_key synth t1 t2 request =>
      exact respond_extends complete api_key synth t1 t2 sessions request
  | getOp sid => exact extends_only_rfl sessions
  | endOp sid => exact end_session_extends sessions sid

theorem run_ops_extends (ops : List Op) (sessions : Store) :
    extends_only sessions (run_ops sessions ops) := by
  induction ops generalizing sessions with
  | nil => exact extends_only_rfl sessions
  | cons op ops ih =>
      exact extends_only_trans (run_op_extends sessions op) (ih (run_op sessions op))

theorem pyTruthy_none : pyTruthy none = false := rfl

theorem problem_name_of_none : problem_name_of none = none := rfl

theorem opening_raw_falsy (n : Option String) (h : pyTruthy n = false)
    (it : InterviewType) : opening_raw it n = opening_raw it none := by
  cases it <;> simp [opening_raw, h, pyTruthy_none]

theorem get_opening_message_blank_first_line (it : InterviewType) (tone : Tone)
    (p : String) (h : py_strip (py_first_line p) = "") :
    get_opening_message it tone (some p) = get_opening_message it tone none := by
  unfold get_opening_message
  have hname : pyTruthy (problem_name_of (some p)) = false := by
    unfold problem_name_of
    by_cases hp : pyTruthy (some p)
    · simp only [hp, if_true, Option.getD, h]
      decide
    · simp only [hp, if_false, Bool.false_eq_true]
      rfl
  rw [opening_raw_falsy (problem_name_of (some p)) hname it, problem_name_of_none]

/-! ## Claim theorems -/

/-- C1: the claim states that every valid start-session request succeeds
and stores a session holding exactly the one interviewer opening turn.
The code cannot do this: `start_session` calls `get_opening_message` with
the keyword argument `verbosity`, which is not a parameter of that
function, so every call raises `TypeError` before anything is stored.
This theorem evaluates the embedded endpoint at every input (hence at
every failing input): it always returns the `TypeError` and leaves the
store unchanged. -/
theorem c1_start_session_always_raises_type_error (r : Nat)
    (api_key : Option String) (synth : SynthOracle) (session_id now : String)
    (sessions : Store) (request : StartSessionRequest) :
    start_session r api_key synth session_id now sessions request
      = (sessions,
         Except.error (ApiError.typeError
           "get_opening_message() got an unexpected keyword argument \x27verbosity\x27")) :=
  start_session_eq r api_key synth session_id now sessions request

/-- C2: a successful `respond` on a stored session appends exactly two
turns — first the candidate (user) turn carrying the given text, then an
interviewer turn carrying the generated reply — keeping every prior turn
unchanged and in order, and leaves every other session untouched. -/
theorem c2_respond_success_appends_two_turns (complete : CompleteOracle)
    (api_key : Option String) (synth : SynthOracle) (t1 t2 : String)
    (sessions : Store) (request : RespondRequest) (s : Session) (reply : String)
    (hs : sessions request.session_id = some s)
    (hgen : generate_response complete
      (s.messages ++ [{ role := "user", content := request.user_message, timestamp := t1 }])
      s.interview_type s.tone s.verbosity s.problem = Except.ok reply) :
    respond complete api_key synth t1 t2 sessions request
      = (fun k => if k = request.session_id then
            some { s with messages := s.messages ++
              [{ role := "user", content := request.user_message, timestamp := t1 },
               { role := "interviewer", content := reply, timestamp := t2 }] }
          else sessions k,
         Except.ok { response_text := reply,
                     audio_url := tts_best_effort api_key synth s.tone reply,
                     is_complete := false })
    ∧ (s.messages ++
        [({ role := "user", content := request.user_message, timestamp := t1 } : Msg),
         { role := "interviewer", content := reply, timestamp := t2 }]).length
      = s.messages.length + 2
    ∧ (s.messages ++
        [({ role := "user", content := request.user_message, timestamp := t1 } : Msg),
         { role := "interviewer", content := reply, timestamp := t2 }]).take s.messages.length
      = s.messages := by
  refine ⟨?_, by simp, List.take_left _ _⟩
  rw [respond_ok_eq complete api_key synth t1 t2 sessions request s reply hs hgen]
  simp

/-- C2 witness: the theorem applied to the concrete fixtures. -/
theorem c2_witness :
    (ex_store ex_request.session_id = some ex_session)
    ∧ (generate_response ok_complete
        (ex_session.messages ++
          [{ role := "user", content := ex_request.user_message, timestamp := "t1" }])
        ex_session.interview_type ex_session.tone ex_session.verbosity ex_session.problem
        = Except.ok "Good point.")
    ∧ (respond ok_complete none fail_synth "t1" "t2" ex_store ex_request
        = (fun k => if k = ex_request.session_id then
              some { ex_session with messages := ex_session.messages ++
                [{ role := "user", content := ex_request.user_message, timestamp := "t1" },
                 { role := "interviewer", content := "Good point.", timestamp := "t2" }] }
            else ex_store k,
           Except.ok { response_text := "Good point.",
                       audio_url := tts_best_effort none fail_synth ex_session.tone "Good point.",
                       is_complete := false })
      ∧ (ex_session.messages ++
          [({ role := "user", content := ex_request.user_message, timestamp := "t1" } : Msg),
           { role := "interviewer", content := "Good point.", timestamp := "t2" }]).length
        = ex_session.messages.length + 2
      ∧ (ex_session.messages ++
          [({ role := "user", content := ex_request.user_message, timestamp := "t1" } : Msg),
           { role := "interviewer", content := "Good point.", timestamp := "t2" }]).take
            ex_session.messages.length
        = ex_session.messages) :=
  ⟨rfl, rfl,
   c2_respond_success_appends_two_turns ok_complete none fail_synth "t1" "t2"
     ex_store ex_request ex_session "Good point." rfl rfl⟩

/-- C3: when the generation collaborator fails, `respond` on a stored
session raises the 500 generation error, the candidate turn stays
appended, and the history grows by exactly one turn. -/
theorem c3_respond_generation_failure_keeps_candidate_turn
    (complete : CompleteOracle) (api_key : Option String) (synth : SynthOracle)
    (t1 t2 : String) (sessions : Store) (request : RespondRequest)
    (s : Session) (e : String)
    (hs : sessions request.session_id = some s)
    (hgen : generate_response complete
      (s.messages ++ [{ role := "user", content := request.user_message, timestamp := t1 }])
      s.interview_type s.tone s.verbosity s.problem = Except.error e) :
    respond complete api_key synth t1 t2 sessions request
      = (fun k => if k = request.session_id then
            some { s with messages := s.messages ++
              [{ role := "user", content := request.user_message, timestamp := t1 }] }
          else sessions k,
         Except.error (ApiError.httpException 500 ("AI generation error: " ++ e)))
    ∧ (s.messages ++
        [({ role := "user", content := request.user_message, timestamp := t1 } : Msg)]).length
      = s.messages.length + 1 :=
  ⟨respond_error_eq complete api_key synth t1 t2 sessions request s e hs hgen, by simp⟩

/-- C3 witness: the theorem applied to the concrete fixtures. -/
theorem c3_witness :
    (ex_store ex_request.session_id = some ex_session)
    ∧ (generate_response fail_complete
        (ex_session.messages ++
          [{ role := "user", content := ex_request.user_message, timestamp := "t1" }])
        ex_session.interview_type ex_session.tone ex_session.verbosity ex_session.problem
        = Except.error "model overloaded")
    ∧ (respond fail_complete none fail_synth "t1" "t2" ex_store ex_request
        = (fun k => if k = ex_request.session_id then
              some { ex_session with messages := ex_session.messages ++
                [{ role := "user", content := ex_request.user_message, timestamp := "t1" }] }
            else ex_store k,
           Except.error (ApiError.httpException 500 ("AI generation error: " ++ "model overloaded")))
      ∧ (ex_session.messages ++
          [({ role := "user", content := ex_request.user_message, timestamp := "t1" } : Msg)]).length
        = ex_session.messages.length + 1) :=
  ⟨rfl, rfl,
   c3_respond_generation_failure_keeps_candidate_turn fail_complete none fail_synth
     "t1" "t2" ex_store ex_request ex_session "model overloaded" rfl rfl⟩

/-- C4: `respond` on an id absent from the store fails with the 404 and
returns the store completely unchanged. -/
theorem c4_respond_unknown_id_not_found (complete : CompleteOracle)
    (api_key : Option String) (synth : SynthOracle) (t1 t2 : String)
    (sessions : Store) (request : RespondRequest)
    (hs : sessions request.session_id = none) :
    respond complete api_key synth t1 t2 sessions request
      = (sessions, Except.error (ApiError.httpException 404 "Session not found")) :=
  respond_none_eq complete api_key synth t1 t2 sessions request hs

/-- C4 witness: the theorem applied at an id the concrete store lacks. -/
theorem c4_witness :
    (ex_store "missing" = none)
    ∧ respond ok_complete none fail_synth "t1" "t2" ex_store
        { session_id := "missing", user_message := "hello" }
      = (ex_store, Except.error (ApiError.httpException 404 "Session not found")) :=
  ⟨rfl,
   c4_respond_unknown_id_not_found ok_complete none fail_synth "t1" "t2" ex_store
     { session_id := "missing", user_message := "hello" } rfl⟩

/-- C5 counterexample: the claim asserts that create still succeeds (with
an absent audio field) whenever the speech-synthesis collaborator fails.
At this concrete input — a valid request, an API key present, a failing
synthesis collaborator — create does not succeed at all: it returns the
`TypeError` raised at the `get_opening_message` call site. -/
theorem c5_counterexample :
    (start_session 0 (some "api-key") fail_synth "sid-1" "t0" (fun _ => none)
        ex_start_request).2
      = Except.error (ApiError.typeError
          "get_opening_message() got an unexpected keyword argument \x27verbosity\x27") := rfl

/-- C5 (amended): for every successful `respond`, a missing API key or a
failing synthesis collaborator is absorbed internally: the call still
succeeds and merely returns an absent audio field.  For create the same
swallowing block exists in the code but is unreachable: every
`start_session` call fails earlier, with the `TypeError` from its
`get_opening_message` call, independently of synthesis. -/
theorem c5_synthesis_failure_never_surfaced :
    (∀ (complete : CompleteOracle) (api_key : Option String) (synth : SynthOracle)
        (t1 t2 : String) (sessions : Store) (request : RespondRequest)
        (s : Session) (reply : String),
      sessions request.session_id = some s →
      generate_response complete
        (s.messages ++ [{ role := "user", content := request.user_message, timestamp := t1 }])
        s.interview_type s.tone s.verbosity s.problem = Except.ok reply →
      (pyTruthy api_key = false ∨
        ∃ err, synth reply (get_voice_for_tone s.tone.value) = Except.error err) →
      (respond complete api_key synth t1 t2 sessions request).2
        = Except.ok { response_text := reply, audio_url := none, is_complete := false })
    ∧ (∀ (r : Nat) (api_key : Option String) (synth : SynthOracle)
        (session_id now : String) (sessions : Store) (request : StartSessionRequest),
      (start_session r api_key synth session_id now sessions request).2
        = Except.error (ApiError.typeError
            "get_opening_message() got an unexpected keyword argument \x27verbosity\x27")) := by
  constructor
  · intro complete api_key synth t1 t2 sessions request s reply hs hgen hfail
    have htts : tts_best_effort api_key synth s.tone reply = none := by
      rcases hfail with hk | ⟨err, herr⟩
      · simp [tts_best_effort, hk]
      · by_cases hk : pyTruthy api_key = false
        · simp [tts_best_effort, hk]
        · simp [tts_best_effort, hk, herr]
    rw [respond_ok_eq complete api_key synth t1 t2 sessions request s reply hs hgen]
    dsimp only
    rw [htts]
  · intro r api_key synth session_id now sessions request
    rw [start_session_eq r api_key synth session_id now sessions request]

/-- C5 witness: the respond half of the theorem applied to the concrete
fixtures, with an API key present and a failing synthesis collaborator. -/
theorem c5_witness :
    (ex_store ex_request.session_id = some ex_session)
    ∧ (generate_response ok_complete
        (ex_session.messages ++
          [{ role := "user", content := ex_request.user_message, timestamp := "t1" }])
        ex_session.interview_type ex_session.tone ex_session.verbosity ex_session.problem
        = Except.ok "Good point.")
    ∧ (pyTruthy (some "api-key") = false ∨
        ∃ err, fail_synth "Good point." (get_voice_for_tone ex_session.tone.value)
          = Except.error err)
    ∧ (respond ok_complete (some "api-key") fail_synth "t1" "t2" ex_store ex_request).2
        = Except.ok { response_text := "Good point.", audio_url := none, is_complete := false } :=
  ⟨rfl, rfl, Or.inr ⟨"synthesis unavailable", rfl⟩,
   c5_synthesis_failure_never_surfaced.1 ok_complete (some "api-key") fail_synth "t1" "t2"
     ex_store ex_request ex_session "Good point." rfl rfl
     (Or.inr ⟨"synthesis unavailable", rfl⟩)⟩

/-- C6: across any sequence of respond, get and end operations, a session
that is still present keeps its interview type, tone, verbosity, topic
and creation time unchanged, and its history has only been extended at
the end (the old history is a prefix of the new one). -/
theorem c6_config_immutable_history_append_only (ops : List Op)
    (sessions : Store) (id : String) (s s2 : Session)
    (h0 : sessions id = some s) (h1 : run_ops sessions ops id = some s2) :
    same_config s s2 ∧ ∃ tail, s2.messages = s.messages ++ tail := by
  obtain ⟨s0, h0x, hcfg, tail, htail⟩ := run_ops_extends ops sessions id s2 h1
  obtain rfl := Option.some.inj (h0.symm.trans h0x)
  exact ⟨hcfg, tail, htail⟩

/-- C6 witness: the theorem applied to a concrete successful respond
followed by a read. -/
theorem c6_witness :
    (ex_store "s1" = some ex_session)
    ∧ (run_ops ex_store ex_ops "s1" = some ex_session_after)
    ∧ (same_config ex_session ex_session_after
      ∧ ∃ tail, ex_session_after.messages = ex_session.messages ++ tail) :=
  ⟨rfl, rfl,
   c6_config_immutable_history_append_only ex_ops ex_store "s1" ex_session
     ex_session_after rfl rfl⟩

/-- C7: ending a stored session removes exactly that session from the
store, returns the total turn count of the removed session, and a
subsequent get on the same id fails with the 404. -/
theorem c7_end_session_removes (sessions : Store) (sid : String) (s : Session)
    (hs : sessions sid = some s) :
    end_session sessions sid
      = (fun k => if k = sid then none else sessions k,
         Except.ok { message := "Session ended", total_messages := s.messages.length })
    ∧ get_session (end_session sessions sid).1 sid
      = Except.error (ApiError.httpException 404 "Session not found") := by
  constructor
  · simp [end_session, hs]
  · simp [end_session, hs, get_session]

/-- C7 witness: the theorem applied to the concrete store. -/
theorem c7_witness :
    (ex_store "s1" = some ex_session)
    ∧ (end_session ex_store "s1"
        = (fun k => if k = "s1" then none else ex_store k,
           Except.ok { message := "Session ended", total_messages := ex_session.messages.length })
      ∧ get_session (end_session ex_store "s1").1 "s1"
        = Except.error (ApiError.httpException 404 "Session not found")) :=
  ⟨rfl, c7_end_session_removes ex_store "s1" ex_session rfl⟩

/-- C8: saving twice under the same session id leaves the in-memory index
mapping that id to the second snapshot (the first is overwritten, and a
keyed store cannot hold a duplicate), the archive read path returns the
second snapshot, and when the second file write succeeds the durable copy
is the second snapshot as well. -/
theorem c8_second_save_overwrites (arch : ArchiveState) (id : String)
    (it1 : InterviewType) (m1 : List Message) (p1 : Option String)
    (w1 : Bool) (t1 : String) (it2 : InterviewType) (m2 : List Message)
    (p2 : Option String) (w2 : Bool) (t2 : String) :
    ((save_session w2 t2
        (save_session w1 t1 arch
          { session_id := id, interview_type := it1, messages := m1, problem := p1 }).1
        { session_id := id, interview_type := it2, messages := m2, problem := p2 }).1.saved_sessions
          id
      = some { session_id := id, interview_type := it2.value, messages := m2,
               problem := p2, saved_at := t2 })
    ∧ (get_saved_session
        (save_session w2 t2
          (save_session w1 t1 arch
            { session_id := id, interview_type := it1, messages := m1, problem := p1 }).1
          { session_id := id, interview_type := it2, messages := m2, problem := p2 }).1 id
      = Except.ok { session_id := id, interview_type := it2.value, messages := m2,
                    problem := p2, saved_at := t2 })
    ∧ ((save_session true t2
        (save_session w1 t1 arch
          { session_id := id, interview_type := it1, messages := m1, problem := p1 }).1
        { session_id := id, interview_type := it2, messages := m2, problem := p2 }).1.files id
      = some { session_id := id, interview_type := it2.value, messages := m2,
               problem := p2, saved_at := t2 }) := by
  cases w1 <;> cases w2 <;> simp [save_session, get_saved_session]

/-- C9 counterexample: the claim says a whitespace-only topic is treated
exactly as an absent topic by the prompt composer; but `if problem:` is
true for a whitespace-only string, so the composed prompt differs from
the absent-topic prompt (it carries a topic block holding the
whitespace). -/
theorem c9_counterexample :
    build_system_prompt InterviewType.system_design Tone.neutral Verbosity.medium (some " ")
      ≠ build_system_prompt InterviewType.system_design Tone.neutral Verbosity.medium none := by
  set_option maxRecDepth 20000 in decide

/-- C9 (amended): an empty topic is treated as absent by the prompt
composer, and a topic whose first line strips to the empty string — in
particular any whitespace-only topic — is treated as absent by the
opening greeting; but a whitespace-only topic is not treated as absent by
the prompt composer (per the counterexample). -/
theorem c9_blank_topic_amended :
    (∀ (it : InterviewType) (tone : Tone) (verbosity : Verbosity),
      build_system_prompt it tone verbosity (some "")
        = build_system_prompt it tone verbosity none)
    ∧ (∀ (it : InterviewType) (tone : Tone) (p : String),
      py_strip (py_first_line p) = "" →
      get_opening_message it tone (some p) = get_opening_message it tone none) := by
  constructor
  · intro it tone verbosity
    simp [build_system_prompt, pyTruthy]
  · intro it tone p h
    exact get_opening_message_blank_first_line it tone p h

/-- C9 witness: the greeting half of the theorem applied to the
whitespace-only topic. -/
theorem c9_witness :
    (py_strip (py_first_line " ") = "")
    ∧ get_opening_message InterviewType.ml_theory Tone.adversarial (some " ")
        = get_opening_message InterviewType.ml_theory Tone.adversarial none :=
  ⟨by decide,
   c9_blank_topic_amended.2 InterviewType.ml_theory Tone.adversarial " " (by decide)⟩

/-- C10: when the durable file write fails, `save_session` still reports
success and still updates the in-memory index (the `files` component of
the archive state is left untouched), so a successful save response does
not guarantee durable persistence. -/
theorem c10_save_succeeds_despite_write_failure (arch : ArchiveState)
    (request : SaveSessionRequest) (now : String) :
    save_session false now arch request
      = ({ arch with
           saved_sessions := fun k =>
             if k = request.session_id then
               some { session_id := request.session_id
                      interview_type := request.interview_type.value
                      messages := request.messages
                      problem := request.problem
                      saved_at := now }
             else arch.saved_sessions k },
         Except.ok { message := "Session saved successfully"
                     session_id := request.session_id
                     saved_at := now }) := by
  simp [save_session]

end InterviewNinja
